import Mathlib

/-!
Verification development for the plant care repository.

The development shallowly embeds the Care Scheduling Engine
(backend/app/services/care_scheduler.py) and the SMS care-action
interpreter (backend/app/services/sms_processor.py).

Modelling conventions:
- Python `datetime` values are whole minutes since 1970-01-01T00:00 (an `Int`);
  `timedelta(days=k)` is `k * 1440` minutes, and `(a - b).days` is the floor
  division of the minute difference by 1440, matching `timedelta.days`.
  The `month` attribute is computed by the standard civil-from-days
  conversion for the proleptic Gregorian calendar.
- Python strings are Lean `String`; the operations used by the code
  (`lower`, `strip`, `split`, `replace`, substring `in`) are defined
  structurally over the character list so that they compute.
- Python floats are modelled as exact rationals; `int(x)` truncates toward
  zero (`pyInt`).
- Python dicts read with `.get(key, default)` are modelled as records of
  `Option` fields read with `Option.getD`, and string-keyed tables as
  association lists read with `List.lookup` / `List.find?` (first match, as
  in insertion-ordered dict iteration).
- The two JSON knowledge sources (curated care profiles, open Kaggle
  catalog) and the personality-template table are runtime data files, not
  code under src; the engine is therefore parameterised by an `Engine`
  record holding arbitrary such tables, exactly as the loader would build
  them.
-/

namespace PlantsText

/-! ### Python string primitives -/

/-- Tests whether `pat` is a prefix of `s` (character lists). -/
def strIsPrefixOfL : List Char → List Char → Bool
  | [], _ => true
  | _ :: _, [] => false
  | p :: ps, c :: cs => p == c && strIsPrefixOfL ps cs

/-- Tests whether `needle` occurs as a contiguous substring of `hay`,
which is the semantics of the Python `in` operator on strings. -/
def strContainsL (needle : List Char) : List Char → Bool
  | [] => needle.isEmpty
  | c :: cs => strIsPrefixOfL needle (c :: cs) || strContainsL needle cs

/-- Python `needle in hay` on strings. -/
def pyIn (needle hay : String) : Bool :=
  strContainsL needle.data hay.data

/-- Python `s.lower()` (ASCII, which covers all strings in the code). -/
def pyLower (s : String) : String :=
  ⟨s.data.map Char.toLower⟩

/-- Python `s.strip()`: drop leading and trailing whitespace. -/
def pyStrip (s : String) : String :=
  ⟨((s.data.dropWhile Char.isWhitespace).reverse.dropWhile Char.isWhitespace).reverse⟩

/-- Helper for `pySplit`: splits at whitespace runs, dropping empty pieces,
accumulating the current word in reverse. -/
def pySplitAux : List Char → List Char → List String
  | acc, [] => if acc.isEmpty then [] else [⟨acc.reverse⟩]
  | acc, c :: cs =>
      if c.isWhitespace then
        if acc.isEmpty then pySplitAux [] cs else ⟨acc.reverse⟩ :: pySplitAux [] cs
      else
        pySplitAux (c :: acc) cs

/-- Python `s.split()` with no argument: split on whitespace runs, no empty words. -/
def pySplit (s : String) : List String :=
  pySplitAux [] s.data

/-- Helper for `pyReplace`, structurally recursive on fuel (taken to be the
length of the string, which bounds the number of steps). -/
def pyReplaceAux (pat rep : List Char) : Nat → List Char → List Char
  | _, [] => []
  | 0, s => s
  | fuel + 1, c :: cs =>
      if strIsPrefixOfL pat (c :: cs) then
        rep ++ pyReplaceAux pat rep fuel (List.drop pat.length (c :: cs))
      else
        c :: pyReplaceAux pat rep fuel cs

/-- Python `s.replace(pat, rep)` for a nonempty pattern (every pattern used by
the code is nonempty): replace all non-overlapping occurrences left to right. -/
def pyReplace (s pat rep : String) : String :=
  if pat.data.isEmpty then s
  else ⟨pyReplaceAux pat.data rep.data s.data.length s.data⟩

/-- Python `int(x)` on a real number: truncation toward zero. -/
def pyInt (q : ℚ) : Int :=
  if 0 ≤ q then ⌊q⌋ else ⌈q⌉

/-! ### Instants and calendar arithmetic -/

/-- Calendar day number (days since 1970-01-01) of an instant in minutes. -/
def dayOfMinutes (t : Int) : Int :=
  t.fdiv 1440

/-- Month (1 to 12) of a civil day count since 1970-01-01, by the standard
civil-from-days conversion for the proleptic Gregorian calendar. -/
def civilMonthOfDay (z : Int) : Int :=
  let z := z + 719468
  let era := z.fdiv 146097
  let doe := z - era * 146097
  let yoe := (doe - doe.fdiv 1460 + doe.fdiv 36524 - doe.fdiv 146096).fdiv 365
  let doy := doe - (365 * yoe + yoe.fdiv 4 - yoe.fdiv 100)
  let mp := (5 * doy + 2).fdiv 153
  if mp < 10 then mp + 3 else mp - 9

/-- The `.month` attribute of a `datetime` held as minutes since the epoch. -/
def pyMonth (t : Int) : Int :=
  civilMonthOfDay (dayOfMinutes t)

/-- Python `(a - b).days` for two datetimes in minutes: `timedelta.days`
floors toward negative infinity. -/
def timedeltaDays (a b : Int) : Int :=
  (a - b).fdiv 1440

/-! ### Enumerations (care_scheduler.py `Season`, `GrowthStage`) -/

inductive Season where
  | spring
  | summer
  | fall
  | winter
deriving DecidableEq, Repr

/-- The `.value` string of a `Season` member. -/
def Season.value : Season → String
  | .spring => "spring"
  | .summer => "summer"
  | .fall => "fall"
  | .winter => "winter"

inductive GrowthStage where
  | new_plant
  | established
  | mature
deriving DecidableEq, Repr

/-- The `.value` string of a `GrowthStage` member. -/
def GrowthStage.value : GrowthStage → String
  | .new_plant => "new_plant"
  | .established => "established"
  | .mature => "mature"

/-! ### Knowledge-base records

These model the JSON dictionaries consumed by `CareScheduleEngine`: every
key the engine reads with a `.get(key, default)` becomes an `Option` field
read with `getD`. -/

/-- One entry of a `seasonal_adjustments` dict. -/
structure SeasonAdj where
  multiplier : Option ℚ
  frequency_days : Option Int
deriving DecidableEq, Repr

/-- The `seasonal_adjustments` dict, keyed by the four season value strings. -/
structure SeasonalAdjustments where
  spring : Option SeasonAdj
  summer : Option SeasonAdj
  fall : Option SeasonAdj
  winter : Option SeasonAdj
deriving DecidableEq, Repr

/-- Dict access `seasonal_adjustments.get(season.value, {})`. -/
def SeasonalAdjustments.get (sa : SeasonalAdjustments) : Season → Option SeasonAdj
  | .spring => sa.spring
  | .summer => sa.summer
  | .fall => sa.fall
  | .winter => sa.winter

/-- One entry of a `growth_stage_adjustments` dict. -/
structure GrowthAdj where
  multiplier : Option ℚ
  note : Option String
deriving DecidableEq, Repr

/-- The `growth_stage_adjustments` dict, keyed by the growth stage value strings. -/
structure GrowthAdjustments where
  new_plant : Option GrowthAdj
  established : Option GrowthAdj
  mature : Option GrowthAdj
deriving DecidableEq, Repr

/-- Dict access `growth_adjustments.get(growth_stage.value, {})`. -/
def GrowthAdjustments.get (ga : GrowthAdjustments) : GrowthStage → Option GrowthAdj
  | .new_plant => ga.new_plant
  | .established => ga.established
  | .mature => ga.mature

/-- The `watering` sub-dict of a care schedule. -/
structure WateringInfo where
  frequency_days : Option ℚ
  seasonal_adjustments : Option SeasonalAdjustments
  growth_stage_adjustments : Option GrowthAdjustments
deriving DecidableEq, Repr

/-- The `fertilizing` sub-dict of a care schedule. -/
structure FertilizingInfo where
  frequency_days : Option Int
deriving DecidableEq, Repr

/-- The `repotting` sub-dict of a care schedule. -/
structure RepottingInfo where
  frequency_years : Option Int
deriving DecidableEq, Repr

/-- The `care_schedule` sub-dict of a care info record. -/
structure CareScheduleInfo where
  watering : Option WateringInfo
  fertilizing : Option FertilizingInfo
  repotting : Option RepottingInfo
deriving DecidableEq, Repr

/-- A care info record: either a curated profile from
`plant_care_schedules.json` or the dict built by
`_create_care_info_from_kaggle`. Fields the engine never reads through
`.get` are plain values. -/
structure CareInfo where
  common_names : Option (List String)
  latin_name : String
  personality : Option String
  data_source : String
  care_schedule : Option CareScheduleInfo
  care_tips : Option (List String)
  original_watering_text : String
  category : String
  climate : String
deriving DecidableEq, Repr

/-- One record of the open Kaggle catalog (house_plants.json); `tempmin` and
`tempmax` are read as `.get("tempmin", {}).get("celsius", 0)`. -/
structure KagglePlant where
  common : List String
  latin : String
  category : String
  watering : String
  ideallight : String
  toleratedlight : String
  climate : String
  tempmin_celsius : Option Int
  tempmax_celsius : Option Int
deriving DecidableEq, Repr

/-- The seasonal multiplier dict built by `parse_watering_frequency_from_text`;
all four keys are always present. -/
structure SeasonalMults where
  spring : ℚ
  summer : ℚ
  fall : ℚ
  winter : ℚ
deriving DecidableEq, Repr

/-- One personality archetype record from plant_personalities.json:
`{message_templates: {message_type: [template, ...]}}`. -/
structure Personality where
  message_templates : List (String × List String)
deriving DecidableEq, Repr

/-- The state loaded by `CareScheduleEngine.__init__`: the curated profile
dict (`plants` in plant_care_schedules.json), the personality dict
(`personalities` in plant_personalities.json) and the Kaggle dict built by
`_load_kaggle_data` (keyed by lower-cased common names). -/
structure Engine where
  curated_plants : List (String × CareInfo)
  personalities : List (String × Personality)
  kaggle_plants : List (String × KagglePlant)

/-- The fixed table built by `_create_category_personality_map`, in insertion
order. -/
def category_personality_map : List (String × String) :=
  [("cactus and succulent", "sarcastic_survivor"),
   ("succulent", "sarcastic_survivor"),
   ("cactus", "sarcastic_survivor"),
   ("dracaena", "steady_reliable"),
   ("fern", "dramatic_communicator"),
   ("bromeliad", "dramatic_diva"),
   ("orchid", "high_maintenance_diva"),
   ("foliage plant", "chill_friend"),
   ("hanging", "chill_friend"),
   ("vine", "chill_friend"),
   ("climbing", "chill_friend"),
   ("tree", "steady_reliable"),
   ("palm", "steady_reliable"),
   ("shrub", "steady_reliable"),
   ("air plant", "independent_survivor"),
   ("epiphyte", "independent_survivor")]

/-! ### CareScheduleEngine: season, growth stage, heuristic parsing -/

/-- `get_current_season(date)`: season from the calendar month of the date. -/
def get_current_season (date : Int) : Season :=
  let month := pyMonth date
  if month = 3 ∨ month = 4 ∨ month = 5 then .spring
  else if month = 6 ∨ month = 7 ∨ month = 8 then .summer
  else if month = 9 ∨ month = 10 ∨ month = 11 then .fall
  else .winter

/-- `determine_growth_stage(plant_added_date, plant_type)`; `now` is the
wall-clock instant read by `datetime.now()`. The `plant_type` argument is
unused by the source body as well. -/
def determine_growth_stage (now plant_added_date : Int) (_plant_type : String) : GrowthStage :=
  let days_owned := timedeltaDays now plant_added_date
  if days_owned < 28 then .new_plant
  else if days_owned < 365 then .established
  else .mature

/-- Keyword set for drought-tolerant watering descriptions. -/
def drought_keywords : List String :=
  ["only when", "must be dry", "completely dry", "dry between"]

/-- Keyword set for moisture-loving watering descriptions. -/
def moist_keywords : List String :=
  ["moist", "must not be dry", "keep wet", "frequently"]

/-- Keyword set for moderate watering descriptions. -/
def moderate_keywords : List String :=
  ["half dry", "regularly", "normal", "moderate"]

/-- Keyword set for vessel-watered descriptions. -/
def vase_keywords : List String :=
  ["change water", "vase", "water in vase"]

/-- `parse_watering_frequency_from_text(watering_text, category)`: phrase
heuristics pick a base frequency and seasonal multipliers, then a category
clamp is applied (succulent or cactus at least 10 days, fern at most 5). -/
def parse_watering_frequency_from_text (watering_text category : String) :
    Int × SeasonalMults :=
  let watering_lower := pyLower watering_text
  let category_lower := pyLower category
  let seasonal_multipliers : SeasonalMults := ⟨9/10, 8/10, 11/10, 13/10⟩
  let bf_sm : Int × SeasonalMults :=
    if drought_keywords.any (fun keyword => pyIn keyword watering_lower) then
      (14, { seasonal_multipliers with winter := 15/10 })
    else if moist_keywords.any (fun keyword => pyIn keyword watering_lower) then
      (4, { seasonal_multipliers with summer := 7/10 })
    else if moderate_keywords.any (fun keyword => pyIn keyword watering_lower) then
      (7, seasonal_multipliers)
    else if vase_keywords.any (fun keyword => pyIn keyword watering_lower) then
      (5, { seasonal_multipliers with winter := 12/10 })
    else if pyIn "succulent" category_lower || pyIn "cactus" category_lower then
      (14, seasonal_multipliers)
    else if pyIn "fern" category_lower then
      (4, seasonal_multipliers)
    else
      (7, seasonal_multipliers)
  let base_freq : Int :=
    if pyIn "succulent" category_lower || pyIn "cactus" category_lower then
      max bf_sm.1 10
    else if pyIn "fern" category_lower then
      min bf_sm.1 5
    else
      bf_sm.1
  (base_freq, bf_sm.2)

/-- `get_personality_from_category(category, climate)`: first matching entry
of the category map (insertion order), then climate fallbacks. -/
def get_personality_from_category (category climate : String) : String :=
  let category_lower := pyLower category
  let climate_lower := pyLower climate
  match category_personality_map.find? (fun p => pyIn p.1 category_lower) with
  | some p => p.2
  | none =>
      if pyIn "desert" climate_lower || pyIn "arid" climate_lower then "sarcastic_survivor"
      else if pyIn "tropical humid" climate_lower then "dramatic_diva"
      else if pyIn "tropical" climate_lower then "chill_friend"
      else "chill_friend"

/-- `create_care_tips_from_kaggle_data(plant_data)`: up to three tips. -/
def create_care_tips_from_kaggle_data (kp : KagglePlant) : List String :=
  let tips : List String := []
  let tips :=
    if pyIn "direct sunlight" (pyLower kp.ideallight) then
      tips ++ ["Loves bright, direct sunlight - place near a south-facing window"]
    else if pyIn "bright light" (pyLower kp.ideallight) then
      tips ++ ["Prefers bright, indirect light - avoid direct sun"]
    else if pyIn "diffused" (pyLower kp.toleratedlight) then
      tips ++ ["Tolerates lower light conditions - good for darker rooms"]
    else tips
  let temp_min := kp.tempmin_celsius.getD 0
  let temp_max := kp.tempmax_celsius.getD 0
  let tips :=
    if temp_min > 15 then
      tips ++ ["Keep warm - minimum temperature " ++ toString temp_min ++ "°C"]
    else tips
  let tips :=
    if temp_max < 25 then
      tips ++ ["Prefers cooler conditions - maximum " ++ toString temp_max ++ "°C"]
    else tips
  let tips :=
    if pyIn "humid" (pyLower kp.climate) then
      tips ++ ["Loves humidity - consider a humidifier or pebble tray"]
    else if pyIn "tropical" (pyLower kp.climate) then
      tips ++ ["Tropical plant - keep warm and provide good air circulation"]
    else tips
  let category := pyLower kp.category
  let tips :=
    if pyIn "succulent" category || pyIn "cactus" category then
      tips ++ ["Drought-tolerant - better to underwater than overwater"]
    else if pyIn "fern" category then
      tips ++ ["Keep soil consistently moist and provide high humidity"]
    else if pyIn "hanging" category then
      tips ++ ["Perfect for hanging baskets or trailing from shelves"]
    else tips
  tips.take 3

/-- `_create_care_info_from_kaggle(plant_data)`: convert a Kaggle record into
the care info format shared with curated profiles. -/
def create_care_info_from_kaggle (kp : KagglePlant) : CareInfo :=
  let parsed := parse_watering_frequency_from_text kp.watering kp.category
  let base_frequency : Int := parsed.1
  let seasonal_multipliers : SeasonalMults := parsed.2
  let personality := get_personality_from_category kp.category kp.climate
  let care_tips := create_care_tips_from_kaggle_data kp
  { common_names := some kp.common
    latin_name := kp.latin
    personality := some personality
    data_source := "kaggle_enhanced"
    care_schedule := some
      { watering := some
          { frequency_days := some (base_frequency : ℚ)
            seasonal_adjustments := some
              { spring := some ⟨some seasonal_multipliers.spring,
                  some (pyInt ((base_frequency : ℚ) * seasonal_multipliers.spring))⟩
                summer := some ⟨some seasonal_multipliers.summer,
                  some (pyInt ((base_frequency : ℚ) * seasonal_multipliers.summer))⟩
                fall := some ⟨some seasonal_multipliers.fall,
                  some (pyInt ((base_frequency : ℚ) * seasonal_multipliers.fall))⟩
                winter := some ⟨some seasonal_multipliers.winter,
                  some (pyInt ((base_frequency : ℚ) * seasonal_multipliers.winter))⟩ }
            growth_stage_adjustments := some
              { new_plant := some ⟨some (12/10), some "New plants need consistent care"⟩
                established := some ⟨some 1, some "Standard care schedule"⟩
                mature := some ⟨some (9/10), some "Mature plants are more resilient"⟩ } }
        fertilizing := some
          ⟨some (if pyIn "succulent" (pyLower kp.category) then 90 else 45)⟩
        repotting := none }
    care_tips := some care_tips
    original_watering_text := kp.watering
    category := kp.category
    climate := kp.climate }

/-- `get_plant_care_info(plant_type)`: four lookup tiers, first hit wins:
curated canonical key, curated alias, Kaggle exact name, Kaggle substring. -/
def get_plant_care_info (E : Engine) (plant_type : String) : Option CareInfo :=
  let plants := E.curated_plants
  match plants.lookup (pyReplace (pyLower plant_type) " " "_") with
  | some info => some info
  | none =>
  match plants.find? (fun p =>
      (p.2.common_names.getD []).any (fun name => pyLower name == pyLower plant_type)) with
  | some p => some p.2
  | none =>
  match E.kaggle_plants.lookup (pyLower plant_type) with
  | some kp => some (create_care_info_from_kaggle kp)
  | none =>
  match E.kaggle_plants.find? (fun p =>
      pyIn (pyLower plant_type) p.1 || pyIn p.1 (pyLower plant_type)) with
  | some p => some (create_care_info_from_kaggle p.2)
  | none => none

/-! ### CareScheduleEngine: schedule computation -/

/-- Empty-dict defaults used by the layered `.get(key, {})` reads. -/
def emptyCareScheduleInfo : CareScheduleInfo := ⟨none, none, none⟩

/-- Empty `watering` dict. -/
def emptyWateringInfo : WateringInfo := ⟨none, none, none⟩

/-- Empty `seasonal_adjustments` dict. -/
def emptySeasonalAdjustments : SeasonalAdjustments := ⟨none, none, none, none⟩

/-- Empty season entry dict. -/
def emptySeasonAdj : SeasonAdj := ⟨none, none⟩

/-- Empty `growth_stage_adjustments` dict. -/
def emptyGrowthAdjustments : GrowthAdjustments := ⟨none, none, none⟩

/-- Empty growth stage entry dict. -/
def emptyGrowthAdj : GrowthAdj := ⟨none, none⟩

/-- Empty `fertilizing` dict. -/
def emptyFertilizingInfo : FertilizingInfo := ⟨none⟩

/-- Empty `repotting` dict. -/
def emptyRepottingInfo : RepottingInfo := ⟨none⟩

/-- The `(base_frequency, seasonal_multiplier)` pair assembled by the body of
`calculate_watering_schedule` before the frequency is truncated: the default
`(7, 1.0)` for an unresolved plant, otherwise the profile reads with their
dict defaults, the growth multiplier already folded into the seasonal one
(`seasonal_multiplier *= growth_multiplier`). -/
def watering_base_and_mult (E : Engine) (plant_type : String)
    (plant_added_date : Int) (season : Season) (now : Int) : ℚ × ℚ :=
  match get_plant_care_info E plant_type with
  | none => (7, 1)
  | some plant_info =>
      let care_schedule := plant_info.care_schedule.getD emptyCareScheduleInfo
      let watering_info := care_schedule.watering.getD emptyWateringInfo
      let base_frequency := watering_info.frequency_days.getD 7
      let seasonal_adjustments := watering_info.seasonal_adjustments.getD emptySeasonalAdjustments
      let season_info := (seasonal_adjustments.get season).getD emptySeasonAdj
      let seasonal_multiplier := season_info.multiplier.getD 1
      let growth_stage := determine_growth_stage now plant_added_date plant_type
      let growth_adjustments := watering_info.growth_stage_adjustments.getD emptyGrowthAdjustments
      let growth_info := (growth_adjustments.get growth_stage).getD emptyGrowthAdj
      let growth_multiplier := growth_info.multiplier.getD 1
      (base_frequency, seasonal_multiplier * growth_multiplier)

/-- `calculate_watering_schedule(plant_type, last_watered, plant_added_date,
season)`: returns `(next_watering, adjusted_frequency)` where
`adjusted_frequency = int(base_frequency * seasonal_multiplier)` and
`next_watering = last_watered + timedelta(days=adjusted_frequency)`.
The optional `season` argument defaults to the current season. -/
def calculate_watering_schedule (E : Engine) (plant_type : String)
    (last_watered plant_added_date : Int) (season : Option Season) (now : Int) :
    Int × Int :=
  let season := season.getD (get_current_season now)
  let bm := watering_base_and_mult E plant_type plant_added_date season now
  let adjusted_frequency := pyInt (bm.1 * bm.2)
  (last_watered + adjusted_frequency * 1440, adjusted_frequency)

/-- The `CareSchedule` dataclass. The source declares `seasonal_adjustments`
as a dict but stores `current_season.value`, a string. -/
structure CareSchedule where
  plant_id : Int
  plant_name : String
  plant_type : String
  next_watering : Int
  next_fertilizing : Option Int
  next_repotting : Option Int
  watering_frequency_days : Int
  seasonal_adjustments : String
  growth_stage : GrowthStage
  personality_type : String
  care_notes : List String
deriving DecidableEq, Repr

/-- `generate_care_schedule(plant_id, plant_name, plant_type, last_watered,
plant_added_date, last_fertilized)`; `now` is the instant read by
`datetime.now()`. -/
def generate_care_schedule (E : Engine) (plant_id : Int)
    (plant_name plant_type : String) (last_watered plant_added_date : Int)
    (last_fertilized : Option Int) (now : Int) : CareSchedule :=
  let current_season := get_current_season now
  let growth_stage := determine_growth_stage now plant_added_date plant_type
  let nw_wf := calculate_watering_schedule E plant_type last_watered plant_added_date
      (some current_season) now
  match get_plant_care_info E plant_type with
  | none =>
      { plant_id := plant_id
        plant_name := plant_name
        plant_type := plant_type
        next_watering := nw_wf.1
        next_fertilizing := none
        next_repotting := none
        watering_frequency_days := nw_wf.2
        seasonal_adjustments := current_season.value
        growth_stage := growth_stage
        personality_type := "chill_friend"
        care_notes := [] }
  | some plant_info =>
      let personality_type := plant_info.personality.getD "chill_friend"
      let care_notes := plant_info.care_tips.getD []
      let care_schedule := plant_info.care_schedule.getD emptyCareScheduleInfo
      let fertilizing_info := care_schedule.fertilizing.getD emptyFertilizingInfo
      let fertilizing_frequency := fertilizing_info.frequency_days.getD 60
      let next_fertilizing :=
        match last_fertilized with
        | some t => t + fertilizing_frequency * 1440
        | none => now + 14 * 1440
      let repotting_info := care_schedule.repotting.getD emptyRepottingInfo
      let repotting_frequency_years := repotting_info.frequency_years.getD 2
      let next_repotting := plant_added_date + repotting_frequency_years * 365 * 1440
      { plant_id := plant_id
        plant_name := plant_name
        plant_type := plant_type
        next_watering := nw_wf.1
        next_fertilizing := some next_fertilizing
        next_repotting := some next_repotting
        watering_frequency_days := nw_wf.2
        seasonal_adjustments := current_season.value
        growth_stage := growth_stage
        personality_type := personality_type
        care_notes := care_notes }

/-! ### CareScheduleEngine: reminders -/

/-- The `CareReminder` dataclass. -/
structure CareReminder where
  plant_id : Int
  plant_name : String
  care_type : String
  due_date : Int
  message : String
  urgency : String
  personality_type : String
deriving DecidableEq, Repr

/-- `_calculate_urgency(care_type, days_overdue, plant_type)`. -/
def calculate_urgency (care_type : String) (days_overdue : Int)
    (_plant_type : String) : String :=
  if care_type = "watering" then
    if days_overdue ≤ 0 then "low"
    else if days_overdue ≤ 2 then "medium"
    else if days_overdue ≤ 5 then "high"
    else "critical"
  else if care_type = "fertilizing" then
    if days_overdue ≤ 7 then "low"
    else if days_overdue ≤ 30 then "medium"
    else "high"
  else "medium"

/-- `_generate_care_message(message_type, personality_type, plant_name, days)`:
template lookup with a neutral fallback, then placeholder substitution. -/
def generate_care_message (E : Engine)
    (message_type personality_type plant_name : String) (days : Int) : String :=
  let personality := (E.personalities.lookup personality_type).getD ⟨[]⟩
  let templates := (personality.message_templates.lookup message_type).getD
      ["Time to take care of " ++ plant_name ++ "!"]
  match templates with
  | [] => "Time to take care of " ++ plant_name ++ "!"
  | template :: _ =>
      pyReplace (pyReplace template "{days}" (toString days)) "{plant_name}" plant_name

/-- One element of the `user_plants` list fed to `get_due_reminders`: a plant
snapshot dict; optional keys are read with `.get`. -/
structure PlantSnapshot where
  id : Int
  nickname : Option String
  common_name : Option String
  last_watered : Option Int
  created_at : Option Int
  last_fertilized : Option Int
deriving DecidableEq, Repr

/-- The `generate_care_schedule` call made for one snapshot inside
`get_due_reminders`, with the dict-default substitutions
`last_watered = now - 7 days` and `created_at = now - 30 days`. -/
def snapshot_schedule (E : Engine) (now : Int) (plant : PlantSnapshot) : CareSchedule :=
  generate_care_schedule E plant.id
    (plant.nickname.getD (plant.common_name.getD "Your plant"))
    (plant.common_name.getD "unknown")
    (plant.last_watered.getD (now - 7 * 1440))
    (plant.created_at.getD (now - 30 * 1440))
    plant.last_fertilized now

/-- The loop body of `get_due_reminders` for one plant: a watering reminder
when `next_watering <= now`, then a fertilizing reminder when
`next_fertilizing` is present and `<= now`. -/
def reminders_for_plant (E : Engine) (now : Int) (plant : PlantSnapshot) :
    List CareReminder :=
  let schedule := snapshot_schedule E now plant
  let watering_reminders :=
    if schedule.next_watering ≤ now then
      let days_overdue := timedeltaDays now schedule.next_watering
      [{ plant_id := schedule.plant_id
         plant_name := schedule.plant_name
         care_type := "watering"
         due_date := schedule.next_watering
         message := generate_care_message E "watering_reminder" schedule.personality_type
             schedule.plant_name days_overdue
         urgency := calculate_urgency "watering" days_overdue schedule.plant_type
         personality_type := schedule.personality_type }]
    else []
  let fertilizing_reminders :=
    match schedule.next_fertilizing with
    | some nf =>
        if nf ≤ now then
          let days_overdue := timedeltaDays now nf
          [{ plant_id := schedule.plant_id
             plant_name := schedule.plant_name
             care_type := "fertilizing"
             due_date := nf
             message := generate_care_message E "fertilizing_reminder" schedule.personality_type
                 schedule.plant_name days_overdue
             urgency := calculate_urgency "fertilizing" days_overdue schedule.plant_type
             personality_type := schedule.personality_type }]
        else []
    | none => []
  watering_reminders ++ fertilizing_reminders

/-- The sort key relation of `sorted(reminders, key=lambda x: x.due_date)`. -/
def reminderLE (a b : CareReminder) : Prop :=
  a.due_date ≤ b.due_date

instance : DecidableRel reminderLE := fun a b =>
  inferInstanceAs (Decidable (a.due_date ≤ b.due_date))

instance : IsTotal CareReminder reminderLE :=
  ⟨fun a b => Int.le_total a.due_date b.due_date⟩

instance : IsTrans CareReminder reminderLE :=
  ⟨fun _ _ _ hab hbc => le_trans hab hbc⟩

/-- `get_due_reminders(user_plants)`: collect the due reminders of every
plant, then sort ascending by due date (a stable sort, like `sorted`). -/
def get_due_reminders (E : Engine) (user_plants : List PlantSnapshot) (now : Int) :
    List CareReminder :=
  List.insertionSort reminderLE (user_plants.flatMap (reminders_for_plant E now))

/-! ### SMSProcessor: care-action detection and plant resolution -/

/-- One active plant of the caller, as consumed by `extract_plant_name`:
`nickname` and `plant.plant_catalog.name`. -/
structure UserPlant where
  nickname : String
  plant_catalog_name : String
deriving DecidableEq, Repr

/-- The primary care action keywords (`self.care_actions`, insertion order). -/
def care_actions : List (String × String) :=
  [("watered", "watering"),
   ("fertilized", "fertilizing"),
   ("repotted", "repotting"),
   ("misted", "misting"),
   ("pruned", "pruning")]

/-- The secondary keyword variations (`care_variations`, insertion order). -/
def care_variations : List (String × String) :=
  [("water", "watering"),
   ("fed", "fertilizing"),
   ("feed", "fertilizing"),
   ("repot", "repotting"),
   ("mist", "misting"),
   ("spray", "misting"),
   ("trim", "pruning"),
   ("cut", "pruning")]

/-- `detect_care_action(message)`: primary keywords first, then variations,
first hit wins. -/
def detect_care_action (message : String) : Option String :=
  let message_lower := pyStrip (pyLower message)
  match care_actions.find? (fun p => pyIn p.1 message_lower) with
  | some p => some p.2
  | none =>
  match care_variations.find? (fun p => pyIn p.1 message_lower) with
  | some p => some p.2
  | none => none

/-- Tier 1 of `extract_plant_name`: the nickname occurs in the message. -/
def nickname_matches (message_lower : String) (plant : UserPlant) : Bool :=
  pyIn (pyLower plant.nickname) message_lower

/-- Tier 2 of `extract_plant_name`: the catalog species name occurs in the
message. -/
def plant_type_matches (message_lower : String) (plant : UserPlant) : Bool :=
  pyIn (pyLower plant.plant_catalog_name) message_lower

/-- Tier 3 of `extract_plant_name`: some message word of length at least 3
contains or is contained in some nickname word of length at least 3. -/
def token_overlap_matches (message_lower : String) (plant : UserPlant) : Bool :=
  let nickname_words := pySplit (pyLower plant.nickname)
  (pySplit message_lower).any (fun msg_word =>
    nickname_words.any (fun nick_word =>
      decide (3 ≤ msg_word.length) && decide (3 ≤ nick_word.length) &&
        (pyIn msg_word nick_word || pyIn nick_word msg_word)))

/-- `extract_plant_name(message, user_plants)`: three resolution tiers, each
returning the nickname of the first matching plant in list order. -/
def extract_plant_name (message : String) (user_plants : List UserPlant) :
    Option String :=
  let message_lower := pyStrip (pyLower message)
  match user_plants.find? (nickname_matches message_lower) with
  | some plant => some plant.nickname
  | none =>
  match user_plants.find? (plant_type_matches message_lower) with
  | some plant => some plant.nickname
  | none =>
  match user_plants.find? (token_overlap_matches message_lower) with
  | some plant => some plant.nickname
  | none => none

/-- Outcome of the plant-resolution slice of `process_sms_message`, after the
user has been found and verified (user lookup, phone verification and the
database write of the resolved action are external collaborators).
`resolved` records the `(plant_name, care_action)` pair handed to
`record_care_action`. -/
inductive SmsOutcome where
  | no_plants
  | no_action_detected
  | plant_not_identified (care_action : String) (available_plants : List String)
  | resolved (plant_name care_action : String)
deriving DecidableEq, Repr

/-- The resolution logic of `process_sms_message(phone_number, message_body)`
over the active plant list: no-plants guard, care-action detection, plant
name extraction, and the single-plant fallback. -/
def process_care_message (message_body : String) (user_plants : List UserPlant) :
    SmsOutcome :=
  if user_plants.isEmpty then .no_plants
  else
    match detect_care_action message_body with
    | none => .no_action_detected
    | some care_action =>
        match extract_plant_name message_body user_plants with
        | some plant_name => .resolved plant_name care_action
        | none =>
            if user_plants.length = 1 then
              .resolved ((user_plants.headD ⟨"", ""⟩).nickname) care_action
            else
              .plant_not_identified care_action (user_plants.map (fun p => p.nickname))

/-! ### Concrete fixtures used by counterexamples and witnesses -/

/-- An engine whose three data sources are empty (the degraded state the
loaders produce when every backing file is missing). -/
def emptyEngine : Engine := ⟨[], [], []⟩

/-- A curated profile whose base watering frequency is 1 day with a winter
multiplier of 0.9, data expressible in plant_care_schedules.json. -/
def lowFrequencyInfo : CareInfo :=
  { common_names := none
    latin_name := ""
    personality := none
    data_source := "curated"
    care_schedule := some
      ⟨some ⟨some 1, some ⟨none, none, none, some ⟨some (9/10), none⟩⟩, none⟩, none, none⟩
    care_tips := none
    original_watering_text := ""
    category := ""
    climate := "" }

/-- An engine whose curated table holds only `lowFrequencyInfo`. -/
def lowFrequencyEngine : Engine := ⟨[("weirdplant", lowFrequencyInfo)], [], []⟩

/-- A drought-tolerant open-catalog record. -/
def kpAloe : KagglePlant :=
  ⟨["Aloe"], "Aloe vera", "cactus and succulent", "water only when completely dry",
   "direct sunlight", "", "desert", none, none⟩

/-- An engine whose only data is the open-catalog record `kpAloe`. -/
def kaggleEngine : Engine := ⟨[], [], [("aloe", kpAloe)]⟩

/-- A curated profile that only fixes a fertilizing frequency of 30 days. -/
def fertilizerInfo : CareInfo :=
  { common_names := none
    latin_name := ""
    personality := none
    data_source := "curated"
    care_schedule := some ⟨none, some ⟨some 30⟩, none⟩
    care_tips := none
    original_watering_text := ""
    category := ""
    climate := "" }

/-- An engine whose curated table holds only `fertilizerInfo`. -/
def fertilizerEngine : Engine := ⟨[("rose", fertilizerInfo)], [], []⟩

/-- A plant snapshot with full care history, last watered at the epoch. -/
def bobSnapshot : PlantSnapshot := ⟨1, some "Bob", some "x", some 0, some 0, none⟩

/-- The overdue watering reminder that `get_due_reminders` produces for
`bobSnapshot` at instant 20000. -/
def bobReminder : CareReminder :=
  ⟨1, "Bob", "watering", 10080, "Time to take care of Bob!", "critical", "chill_friend"⟩

/-- A plant snapshot lacking only `last_watered`. -/
def missingWateredSnapshot : PlantSnapshot := ⟨3, some "Milo", some "y", none, some 100, none⟩

/-- A plant snapshot lacking only `created_at`. -/
def missingCreatedSnapshot : PlantSnapshot := ⟨4, some "Rex", some "w", some 200, none, none⟩

/-! ### Helper lemmas -/

lemma pyInt_eq_floor {q : ℚ} (h : 0 ≤ q) : pyInt q = ⌊q⌋ := by
  unfold pyInt
  exact if_pos h

lemma one_le_pyInt {q : ℚ} (h : 1 ≤ q) : 1 ≤ pyInt q := by
  rw [pyInt_eq_floor (le_trans zero_le_one h)]
  exact Int.le_floor.mpr (by exact_mod_cast h)

lemma calculate_watering_schedule_default (E : Engine) (plant_type : String)
    (last_watered plant_added_date : Int) (season : Option Season) (now : Int)
    (h : get_plant_care_info E plant_type = none) :
    calculate_watering_schedule E plant_type last_watered plant_added_date season now
      = (last_watered + 7 * 1440, 7) := by
  unfold calculate_watering_schedule watering_base_and_mult
  rw [h]
  have h7 : pyInt (7:ℚ) = 7 := by
    rw [pyInt_eq_floor (by norm_num)]
    norm_num
  simp [h7]

lemma urgency_watering (d : Nat) (pt : String) :
    calculate_urgency "watering" (d : Int) pt =
      (if d = 0 then "low" else if d ≤ 2 then "medium"
       else if d ≤ 5 then "high" else "critical") := by
  unfold calculate_urgency
  rw [if_pos rfl]
  split_ifs <;> first | rfl | (exfalso; omega)

lemma urgency_fertilizing (d : Nat) (pt : String) :
    calculate_urgency "fertilizing" (d : Int) pt =
      (if d ≤ 7 then "low" else if d ≤ 30 then "medium" else "high") := by
  unfold calculate_urgency
  rw [if_neg (by decide), if_pos rfl]
  split_ifs <;> first | rfl | (exfalso; omega)

lemma parse_base_ge_four (wt cat : String) :
    4 ≤ (parse_watering_frequency_from_text wt cat).1 := by
  simp only [parse_watering_frequency_from_text]
  split_ifs <;> simp

lemma parse_mults_ge (wt cat : String) :
    (7:ℚ)/10 ≤ (parse_watering_frequency_from_text wt cat).2.spring ∧
    (7:ℚ)/10 ≤ (parse_watering_frequency_from_text wt cat).2.summer ∧
    (7:ℚ)/10 ≤ (parse_watering_frequency_from_text wt cat).2.fall ∧
    (7:ℚ)/10 ≤ (parse_watering_frequency_from_text wt cat).2.winter := by
  simp only [parse_watering_frequency_from_text]
  split_ifs <;> norm_num

lemma one_le_product (b ms mg : ℚ) (hb : 4 ≤ b) (hms : 7/10 ≤ ms) (hmg : 9/10 ≤ mg) :
    1 ≤ b * (ms * mg) := by
  have h1 : (7/10 : ℚ) * (9/10) ≤ ms * mg :=
    mul_le_mul hms hmg (by norm_num) (by linarith)
  have h2 : (4:ℚ) * ((7/10) * (9/10)) ≤ b * (ms * mg) :=
    mul_le_mul hb h1 (by norm_num) (by linarith)
  nlinarith [h2]

lemma kaggle_bm_ge_one (E : Engine) (kp : KagglePlant) (pt : String)
    (ad now : Int) (sn : Season)
    (hk : get_plant_care_info E pt = some (create_care_info_from_kaggle kp)) :
    1 ≤ (watering_base_and_mult E pt ad sn now).1 *
        (watering_base_and_mult E pt ad sn now).2 := by
  simp only [watering_base_and_mult, hk, create_care_info_from_kaggle, Option.getD_some]
  cases sn <;> cases determine_growth_stage now ad pt <;>
    simp only [SeasonalAdjustments.get, GrowthAdjustments.get, Option.getD_some] <;>
    refine one_le_product _ _ _ ?_ ?_ ?_ <;>
    first
      | exact_mod_cast parse_base_ge_four kp.watering kp.category
      | exact (parse_mults_ge kp.watering kp.category).1
      | exact (parse_mults_ge kp.watering kp.category).2.1
      | exact (parse_mults_ge kp.watering kp.category).2.2.1
      | exact (parse_mults_ge kp.watering kp.category).2.2.2
      | norm_num

lemma season_eq_of_same_day {n1 n2 : Int} (h : dayOfMinutes n1 = dayOfMinutes n2) :
    get_current_season n1 = get_current_season n2 := by
  unfold get_current_season pyMonth
  rw [h]

lemma growth_stage_eq_of_same_days {n1 n2 ad : Int} {pt : String}
    (h : timedeltaDays n1 ad = timedeltaDays n2 ad) :
    determine_growth_stage n1 ad pt = determine_growth_stage n2 ad pt := by
  unfold determine_growth_stage
  rw [h]

lemma due_le_of_mem_reminders_for_plant {E : Engine} {now : Int}
    {plant : PlantSnapshot} {r : CareReminder}
    (h : r ∈ reminders_for_plant E now plant) : r.due_date ≤ now := by
  unfold reminders_for_plant at h
  rw [List.mem_append] at h
  rcases h with h | h
  · by_cases hw : (snapshot_schedule E now plant).next_watering ≤ now
    · simp only [if_pos hw, List.mem_singleton] at h
      subst h
      exact hw
    · simp only [if_neg hw] at h
      cases h
  · cases hnf : (snapshot_schedule E now plant).next_fertilizing with
    | none =>
        rw [hnf] at h
        cases h
    | some nf =>
        rw [hnf] at h
        by_cases hle : nf ≤ now
        · simp only [if_pos hle, List.mem_singleton] at h
          subst h
          exact hle
        · simp only [if_neg hle] at h
          cases h

lemma bob_schedule_eval :
    snapshot_schedule emptyEngine 20000 bobSnapshot =
      { plant_id := 1
        plant_name := "Bob"
        plant_type := "x"
        next_watering := 10080
        next_fertilizing := none
        next_repotting := none
        watering_frequency_days := 7
        seasonal_adjustments := "winter"
        growth_stage := .new_plant
        personality_type := "chill_friend"
        care_notes := [] } := by
  have hcalc : calculate_watering_schedule emptyEngine "x" 0 0
      (some (get_current_season 20000)) 20000 = (10080, 7) := by
    rw [calculate_watering_schedule_default emptyEngine "x" 0 0
      (some (get_current_season 20000)) 20000 (by decide)]
    norm_num
  unfold snapshot_schedule bobSnapshot
  simp only [Option.getD_some]
  simp only [generate_care_schedule, hcalc,
    show get_plant_care_info emptyEngine "x" = none from by decide]
  decide

lemma bob_reminders_eval :
    get_due_reminders emptyEngine [bobSnapshot] 20000 = [bobReminder] := by
  unfold get_due_reminders
  simp only [List.flatMap_cons, List.flatMap_nil, List.append_nil]
  rw [show reminders_for_plant emptyEngine 20000 bobSnapshot = [bobReminder] from ?_]
  · rfl
  · unfold reminders_for_plant
    rw [bob_schedule_eval]
    decide

/-! ### Claim C1 -/

/-- Claim C1, amended: for every engine state and plant input the
`watering_frequency_days` computed by `calculate_watering_schedule` (and
copied into the `CareSchedule` of `generate_care_schedule`) equals the
truncation of `base_frequency * seasonal_multiplier * growth_multiplier`,
which is the floor whenever that product is nonnegative; it is at least 1
whenever the product is at least 1, and in particular whenever the profile
is the system default or is derived from the open catalog. The code applies
no minimum-1 clamp, so a curated profile whose product is below 1 yields 0
(see the counterexample). -/
theorem watering_frequency_floor_spec (E : Engine) (plant_id : Int)
    (plant_name plant_type : String) (last_watered plant_added_date : Int)
    (last_fertilized : Option Int) (season : Option Season) (now : Int) :
    (0 ≤ (watering_base_and_mult E plant_type plant_added_date
            (season.getD (get_current_season now)) now).1 *
          (watering_base_and_mult E plant_type plant_added_date
            (season.getD (get_current_season now)) now).2 →
      (calculate_watering_schedule E plant_type last_watered plant_added_date season now).2
        = ⌊(watering_base_and_mult E plant_type plant_added_date
              (season.getD (get_current_season now)) now).1 *
            (watering_base_and_mult E plant_type plant_added_date
              (season.getD (get_current_season now)) now).2⌋)
  ∧ (1 ≤ (watering_base_and_mult E plant_type plant_added_date
            (season.getD (get_current_season now)) now).1 *
          (watering_base_and_mult E plant_type plant_added_date
            (season.getD (get_current_season now)) now).2 →
      1 ≤ (calculate_watering_schedule E plant_type last_watered plant_added_date season now).2)
  ∧ ((generate_care_schedule E plant_id plant_name plant_type last_watered
        plant_added_date last_fertilized now).watering_frequency_days
      = (calculate_watering_schedule E plant_type last_watered plant_added_date
          (some (get_current_season now)) now).2)
  ∧ ((get_plant_care_info E plant_type = none ∨
        ∃ kp, get_plant_care_info E plant_type = some (create_care_info_from_kaggle kp)) →
      1 ≤ (calculate_watering_schedule E plant_type last_watered plant_added_date season now).2) := by
  refine ⟨?_, ?_, ?_, ?_⟩
  · intro h
    simp only [calculate_watering_schedule]
    exact pyInt_eq_floor h
  · intro h
    simp only [calculate_watering_schedule]
    exact one_le_pyInt h
  · cases hl : get_plant_care_info E plant_type <;>
      simp only [generate_care_schedule, hl]
  · rintro (hnone | ⟨kp, hk⟩)
    · rw [calculate_watering_schedule_default E plant_type last_watered plant_added_date
        season now hnone]
      norm_num
    · simp only [calculate_watering_schedule]
      exact one_le_pyInt (kaggle_bm_ge_one E kp plant_type plant_added_date now _ hk)

/-- Claim C1, counterexample: a curated profile with base frequency 1 and
winter multiplier 0.9 yields `watering_frequency_days = 0`, refuting the
claimed invariant that the frequency is always a positive integer. -/
theorem watering_frequency_zero_counterexample :
    (generate_care_schedule lowFrequencyEngine 1 "Planty" "weirdplant" 0 0 none 0).watering_frequency_days
      = 0 := by
  have hl : get_plant_care_info lowFrequencyEngine "weirdplant" = some lowFrequencyInfo := by
    unfold get_plant_care_info lowFrequencyEngine
    simp only [List.lookup]
    rw [show (pyReplace (pyLower "weirdplant") " " "_" == "weirdplant") = true from by decide]
  have hseason : get_current_season 0 = Season.winter := by decide
  have hgrowth : determine_growth_stage 0 0 "weirdplant" = GrowthStage.new_plant := by decide
  simp only [generate_care_schedule, calculate_watering_schedule, watering_base_and_mult,
    hl, hseason, hgrowth, lowFrequencyInfo, Option.getD_some, Option.getD_none,
    SeasonalAdjustments.get, GrowthAdjustments.get, emptyGrowthAdjustments, emptyGrowthAdj]
  rw [pyInt_eq_floor (by norm_num)]
  norm_num

/-- Claim C1, witness: the floor equation, the frequency link between
`generate_care_schedule` and `calculate_watering_schedule`, and the
at-least-1 bound for the default profile and for an open-catalog profile,
at concrete inputs. -/
theorem watering_frequency_floor_spec_witness :
    (calculate_watering_schedule emptyEngine "mystery" 0 0 none 0).2
      = ⌊(watering_base_and_mult emptyEngine "mystery" 0
            ((none : Option Season).getD (get_current_season 0)) 0).1 *
          (watering_base_and_mult emptyEngine "mystery" 0
            ((none : Option Season).getD (get_current_season 0)) 0).2⌋
  ∧ 1 ≤ (calculate_watering_schedule emptyEngine "mystery" 0 0 none 0).2
  ∧ (generate_care_schedule emptyEngine 1 "Bob" "mystery" 0 0 none 0).watering_frequency_days
      = (calculate_watering_schedule emptyEngine "mystery" 0 0 (some (get_current_season 0)) 0).2
  ∧ 1 ≤ (calculate_watering_schedule kaggleEngine "aloe" 0 0 none 0).2 := by
  have hbm : watering_base_and_mult emptyEngine "mystery" 0
      ((none : Option Season).getD (get_current_season 0)) 0 = (7, 1) := by
    simp [watering_base_and_mult, show get_plant_care_info emptyEngine "mystery" = none from by decide]
  refine ⟨(watering_frequency_floor_spec emptyEngine 1 "Bob" "mystery" 0 0 none none 0).1 ?_,
    (watering_frequency_floor_spec emptyEngine 1 "Bob" "mystery" 0 0 none none 0).2.1 ?_,
    (watering_frequency_floor_spec emptyEngine 1 "Bob" "mystery" 0 0 none none 0).2.2.1,
    (watering_frequency_floor_spec kaggleEngine 1 "Bob" "aloe" 0 0 none none 0).2.2.2
      (Or.inr ⟨kpAloe, rfl⟩)⟩
  · rw [hbm]
    norm_num
  · rw [hbm]
    norm_num

/-! ### Claim C2 -/

/-- Claim C2, amended: `parse_watering_frequency_from_text` returns a base
frequency of at least 10 whenever the text contains a drought-tolerant
phrase and the category does not trigger the fern clamp (fern absent, or
overridden by succulent or cactus); it returns at most 5 whenever the text
contains a moisture-loving phrase, no drought-tolerant phrase precedes it
in priority, and the category does not trigger the succulent or cactus
clamp. The original unconditional claim is refuted by the clamps and the
phrase priority (see the counterexample). -/
theorem parse_keyword_bounds (wt cat : String) :
    ((drought_keywords.any fun k => pyIn k (pyLower wt)) = true →
      (pyIn "fern" (pyLower cat) = false ∨
        (pyIn "succulent" (pyLower cat) || pyIn "cactus" (pyLower cat)) = true) →
      10 ≤ (parse_watering_frequency_from_text wt cat).1)
  ∧ ((moist_keywords.any fun k => pyIn k (pyLower wt)) = true →
      (drought_keywords.any fun k => pyIn k (pyLower wt)) = false →
      (pyIn "succulent" (pyLower cat) || pyIn "cactus" (pyLower cat)) = false →
      (parse_watering_frequency_from_text wt cat).1 ≤ 5) := by
  constructor
  · intro hd hcat
    simp only [parse_watering_frequency_from_text, hd]
    rcases hcat with hfern | hsc
    · cases hsc : (pyIn "succulent" (pyLower cat) || pyIn "cactus" (pyLower cat)) <;>
        simp [hsc, hfern]
    · simp [hsc]
  · intro hm hd hsc
    simp only [parse_watering_frequency_from_text, hd, hm, hsc]
    cases hf : pyIn "fern" (pyLower cat) <;> simp [hf]

/-- Claim C2, counterexample: a drought-tolerant text with a fern category is
clamped to 5, below the claimed bound of 10, and a moisture-loving text
with a cactus category is clamped to 10, above the claimed bound of 5. -/
theorem drought_fern_counterexample :
    (parse_watering_frequency_from_text "completely dry" "fern").1 < 10 ∧
    5 < (parse_watering_frequency_from_text "keep soil moist" "cactus").1 := by
  decide

/-- Claim C2, witness: both amended bounds at concrete inputs. -/
theorem parse_keyword_bounds_witness :
    10 ≤ (parse_watering_frequency_from_text "water only when completely dry" "cactus").1
  ∧ (parse_watering_frequency_from_text "keep soil moist" "").1 ≤ 5 :=
  ⟨(parse_keyword_bounds "water only when completely dry" "cactus").1 (by decide)
      (Or.inr (by decide)),
   (parse_keyword_bounds "keep soil moist" "").2 (by decide) (by decide) (by decide)⟩

/-! ### Claim C3 -/

/-- Claim C3, amended: when one or more candidates match, resolution picks
the first matching plant in collection order at the earliest matching
tier — exact nickname substring, then species-name substring, then
token-overlap — and never asks for clarification, which also covers the
case of several same-tier matches; the clarification outcome
`plant_not_identified` is produced exactly when a care action is
detected, no tier matches any plant, and the collection has more than one
plant. The original claim, that two same-tier matches yield an ambiguity
outcome, is refuted by the counterexample. -/
theorem resolve_first_match_tiers (msg : String) (plants : List UserPlant)
    (p : UserPlant) (action : String) :
    (detect_care_action msg = some action →
      plants.find? (nickname_matches (pyStrip (pyLower msg))) = some p →
      process_care_message msg plants = .resolved p.nickname action)
  ∧ (detect_care_action msg = some action →
      plants.find? (nickname_matches (pyStrip (pyLower msg))) = none →
      plants.find? (plant_type_matches (pyStrip (pyLower msg))) = some p →
      process_care_message msg plants = .resolved p.nickname action)
  ∧ (detect_care_action msg = some action →
      plants.find? (nickname_matches (pyStrip (pyLower msg))) = none →
      plants.find? (plant_type_matches (pyStrip (pyLower msg))) = none →
      plants.find? (token_overlap_matches (pyStrip (pyLower msg))) = some p →
      process_care_message msg plants = .resolved p.nickname action)
  ∧ (∀ a avail, process_care_message msg plants = .plant_not_identified a avail →
      detect_care_action msg = some a ∧ extract_plant_name msg plants = none ∧
      plants.length ≠ 1 ∧ plants ≠ [] ∧ avail = plants.map (fun q => q.nickname))
  ∧ (detect_care_action msg = some action →
      extract_plant_name msg plants = none →
      plants ≠ [] →
      plants.length ≠ 1 →
      process_care_message msg plants =
        .plant_not_identified action (plants.map (fun q => q.nickname))) := by
  refine ⟨?_, ?_, ?_, ?_, ?_⟩
  · intro haction hfind
    have hmem : p ∈ plants := List.mem_of_find?_eq_some hfind
    have hne : plants.isEmpty = false := by
      cases plants with
      | nil => cases hmem
      | cons a l => rfl
    unfold process_care_message extract_plant_name
    simp only [hne, haction, hfind]
    rfl
  · intro haction h1 h2
    have hmem : p ∈ plants := List.mem_of_find?_eq_some h2
    have hne : plants.isEmpty = false := by
      cases plants with
      | nil => cases hmem
      | cons a l => rfl
    unfold process_care_message extract_plant_name
    simp only [hne, haction, h1, h2]
    rfl
  · intro haction h1 h2 h3
    have hmem : p ∈ plants := List.mem_of_find?_eq_some h3
    have hne : plants.isEmpty = false := by
      cases plants with
      | nil => cases hmem
      | cons a l => rfl
    unfold process_care_message extract_plant_name
    simp only [hne, haction, h1, h2, h3]
    rfl
  · intro a avail h
    unfold process_care_message at h
    cases hemp : plants.isEmpty with
    | true =>
        rw [hemp] at h
        simp only [if_pos rfl] at h
        exact SmsOutcome.noConfusion h
    | false =>
        rw [hemp] at h
        simp only [Bool.false_eq_true, if_false] at h
        cases hd : detect_care_action msg with
        | none =>
            simp only [hd] at h
            exact SmsOutcome.noConfusion h
        | some ca =>
            simp only [hd] at h
            cases he : extract_plant_name msg plants with
            | some nm =>
                simp only [he] at h
                exact SmsOutcome.noConfusion h
            | none =>
                simp only [he] at h
                by_cases hlen : plants.length = 1
                · rw [if_pos hlen] at h
                  exact SmsOutcome.noConfusion h
                · rw [if_neg hlen] at h
                  cases h
                  refine ⟨rfl, rfl, hlen, ?_, rfl⟩
                  intro hnil
                  rw [hnil] at hemp
                  exact Bool.noConfusion hemp
  · intro haction hextract hne hlen
    have hemp : plants.isEmpty = false := by
      cases plants with
      | nil => exact absurd rfl hne
      | cons a l => rfl
    unfold process_care_message
    simp only [hemp, haction, hextract]
    rw [if_neg hlen]
    simp

/-- Claim C3, counterexample: both plants match the message at the nickname
tier, yet resolution returns the first one rather than an ambiguity
outcome. -/
theorem ambiguous_picks_first_counterexample :
    process_care_message "watered fernando and sammy"
        [⟨"Fernando", "snake plant"⟩, ⟨"Sammy", "fern"⟩]
      = .resolved "Fernando" "watering" := by
  decide

/-- Claim C3, witness: first-match resolution at each of the three tiers,
the characterization of a concrete clarification outcome, and the
no-match clarification outcome, all at concrete inputs. -/
theorem resolve_first_match_tiers_witness :
    process_care_message "watered bob" [⟨"Bob", "rose"⟩, ⟨"Ann", "monstera"⟩]
      = .resolved "Bob" "watering"
  ∧ process_care_message "watered the snake plant" [⟨"Ferny", "fern"⟩, ⟨"Sam", "snake plant"⟩]
      = .resolved "Sam" "watering"
  ∧ process_care_message "watered ferny today" [⟨"Big Ferny", "palm"⟩, ⟨"Rex", "oak"⟩]
      = .resolved "Big Ferny" "watering"
  ∧ (detect_care_action "watered it" = some "watering"
      ∧ extract_plant_name "watered it" [⟨"Fernando", "snake plant"⟩, ⟨"Sammy", "palm"⟩] = none
      ∧ ([(⟨"Fernando", "snake plant"⟩ : UserPlant), ⟨"Sammy", "palm"⟩].length ≠ 1)
      ∧ ([(⟨"Fernando", "snake plant"⟩ : UserPlant), ⟨"Sammy", "palm"⟩] ≠ [])
      ∧ ["Fernando", "Sammy"] =
          [(⟨"Fernando", "snake plant"⟩ : UserPlant), ⟨"Sammy", "palm"⟩].map
            (fun q => q.nickname))
  ∧ process_care_message "watered it" [⟨"Fernando", "snake plant"⟩, ⟨"Sammy", "palm"⟩]
      = .plant_not_identified "watering" ["Fernando", "Sammy"] :=
  ⟨(resolve_first_match_tiers "watered bob" [⟨"Bob", "rose"⟩, ⟨"Ann", "monstera"⟩]
      ⟨"Bob", "rose"⟩ "watering").1 (by decide) (by decide),
   (resolve_first_match_tiers "watered the snake plant"
      [⟨"Ferny", "fern"⟩, ⟨"Sam", "snake plant"⟩] ⟨"Sam", "snake plant"⟩ "watering").2.1
      (by decide) (by decide) (by decide),
   (resolve_first_match_tiers "watered ferny today"
      [⟨"Big Ferny", "palm"⟩, ⟨"Rex", "oak"⟩] ⟨"Big Ferny", "palm"⟩ "watering").2.2.1
      (by decide) (by decide) (by decide) (by decide),
   (resolve_first_match_tiers "watered it"
      [⟨"Fernando", "snake plant"⟩, ⟨"Sammy", "palm"⟩] ⟨"Fernando", "snake plant"⟩
      "watering").2.2.2.1 "watering" ["Fernando", "Sammy"] (by decide),
   (resolve_first_match_tiers "watered it"
      [⟨"Fernando", "snake plant"⟩, ⟨"Sammy", "palm"⟩] ⟨"Fernando", "snake plant"⟩
      "watering").2.2.2.2 (by decide) (by decide) (by decide) (by decide)⟩

/-! ### Claim C4 -/

/-- Claim C4, amended: two calls of `generate_care_schedule` with identical
inputs at two instants of the same calendar day return identical
`CareSchedule` values provided the two instants also agree on the
elapsed-days count that feeds the growth stage, and a fertilizing date is
present or the species is unresolved. Without these provisos the original
same-calendar-day claim fails: the days-owned count can cross the 28 or
365 day boundary within one calendar day (see the counterexample), and for
a resolved species with no `last_fertilized` the result contains
`now + 14 days`, which moves with the clock. -/
theorem schedule_same_day_determinism (E : Engine) (plant_id : Int)
    (plant_name plant_type : String) (last_watered plant_added_date : Int)
    (last_fertilized : Option Int) (now1 now2 : Int)
    (hday : dayOfMinutes now1 = dayOfMinutes now2)
    (howned : timedeltaDays now1 plant_added_date = timedeltaDays now2 plant_added_date)
    (hfert : last_fertilized.isSome = true ∨ get_plant_care_info E plant_type = none) :
    generate_care_schedule E plant_id plant_name plant_type last_watered
        plant_added_date last_fertilized now1 =
    generate_care_schedule E plant_id plant_name plant_type last_watered
        plant_added_date last_fertilized now2 := by
  have hs := season_eq_of_same_day hday
  have hg := @growth_stage_eq_of_same_days now1 now2 plant_added_date plant_type howned
  cases hl : get_plant_care_info E plant_type with
  | none =>
      simp only [generate_care_schedule, calculate_watering_schedule,
        watering_base_and_mult, hl, hs, hg]
  | some info =>
      rcases hfert with hsome | hnone
      · obtain ⟨t, rfl⟩ := Option.isSome_iff_exists.mp hsome
        simp only [generate_care_schedule, calculate_watering_schedule,
          watering_base_and_mult, hl, hs, hg]
      · rw [hl] at hnone
        cases hnone

/-- Claim C4, counterexample: two instants of the same calendar day (day 28,
at 10:00 and at 14:00, for a plant entered into care at noon of day 0)
give different schedules, because the growth stage flips from new plant to
established between them. -/
theorem same_day_differs_counterexample :
    dayOfMinutes (28 * 1440 + 600) = dayOfMinutes (28 * 1440 + 840) ∧
    generate_care_schedule emptyEngine 1 "Planty" "mystery" 0 720 none (28 * 1440 + 600) ≠
      generate_care_schedule emptyEngine 1 "Planty" "mystery" 0 720 none (28 * 1440 + 840) := by
  constructor
  · decide
  · intro h
    have hg := congrArg CareSchedule.growth_stage h
    revert hg
    decide

/-- Claim C4, witness: the amended determinism at two concrete instants of
the same calendar day. -/
theorem schedule_same_day_determinism_witness :
    generate_care_schedule emptyEngine 1 "Planty" "mystery" 0 0 none 100 =
      generate_care_schedule emptyEngine 1 "Planty" "mystery" 0 0 none 200 :=
  schedule_same_day_determinism emptyEngine 1 "Planty" "mystery" 0 0 none 100 200
    (by decide) (by decide) (Or.inr (by decide))

/-! ### Claim C5 -/

/-- Claim C5, amended: when the species resolves to a profile,
`next_fertilizing` is `last_fertilized` plus the profile fertilizing
frequency (default 60 days) when `last_fertilized` is present, and `now`
plus 14 days otherwise; when the species does not resolve,
`next_fertilizing` is absent. The original claim that the 14-day fallback
applies regardless of resolution is refuted by the counterexample. -/
theorem next_fertilizing_schedule (E : Engine) (plant_id : Int)
    (plant_name plant_type : String) (last_watered plant_added_date : Int)
    (last_fertilized : Option Int) (now : Int) :
    (∀ info, get_plant_care_info E plant_type = some info →
      (generate_care_schedule E plant_id plant_name plant_type last_watered
          plant_added_date last_fertilized now).next_fertilizing =
        some (match last_fertilized with
          | some t => t + (((info.care_schedule.getD emptyCareScheduleInfo).fertilizing.getD
              emptyFertilizingInfo).frequency_days.getD 60) * 1440
          | none => now + 14 * 1440))
  ∧ (get_plant_care_info E plant_type = none →
      (generate_care_schedule E plant_id plant_name plant_type last_watered
          plant_added_date last_fertilized now).next_fertilizing = none) := by
  constructor
  · intro info hinfo
    unfold generate_care_schedule
    simp only [hinfo]
  · intro hnone
    unfold generate_care_schedule
    simp only [hnone]

/-- Claim C5, counterexample: for an unresolved species the schedule has no
`next_fertilizing` at all, even though a fertilizing date was supplied,
refuting the claim that the field is never absent regardless of
resolution. -/
theorem unresolved_next_fertilizing_none_counterexample :
    (generate_care_schedule emptyEngine 2 "Planty" "mystery" 0 0 (some 0) 500).next_fertilizing
      = none := by
  decide

/-- Claim C5, witness: a resolved profile with fertilizing frequency 30 days
and a present `last_fertilized` yields exactly that offset. -/
theorem next_fertilizing_schedule_witness :
    (generate_care_schedule fertilizerEngine 1 "Rosie" "rose" 0 0 (some 100) 5000).next_fertilizing
      = some (100 + 30 * 1440) := by
  have h := (next_fertilizing_schedule fertilizerEngine 1 "Rosie" "rose" 0 0
      (some 100) 5000).1 fertilizerInfo (by decide)
  exact h

/-! ### Claim C6 -/

/-- Claim C6, confirmed: for every species name that no lookup tier resolves,
`generate_care_schedule` still produces a schedule (the embedding is a
total function) using the system default profile: watering frequency 7
days (7 times a neutral 1.0 multiplier) and next watering 7 days after
the last one. -/
theorem default_schedule_on_unresolved (E : Engine) (plant_id : Int)
    (plant_name plant_type : String) (last_watered plant_added_date : Int)
    (last_fertilized : Option Int) (now : Int)
    (h : get_plant_care_info E plant_type = none) :
    (generate_care_schedule E plant_id plant_name plant_type last_watered
        plant_added_date last_fertilized now).watering_frequency_days = 7 ∧
    (generate_care_schedule E plant_id plant_name plant_type last_watered
        plant_added_date last_fertilized now).next_watering = last_watered + 7 * 1440 := by
  simp only [generate_care_schedule, h,
    calculate_watering_schedule_default E plant_type last_watered plant_added_date
      (some (get_current_season now)) now h]
  simp

/-- Claim C6, witness: the default schedule at a concrete unresolved species. -/
theorem default_schedule_on_unresolved_witness :
    (generate_care_schedule emptyEngine 1 "Planty" "mystery" 0 0 none 0).watering_frequency_days = 7
  ∧ (generate_care_schedule emptyEngine 1 "Planty" "mystery" 0 0 none 0).next_watering
      = 0 + 7 * 1440 :=
  default_schedule_on_unresolved emptyEngine 1 "Planty" "mystery" 0 0 none 0 (by decide)

/-! ### Claim C7 -/

/-- Claim C7, confirmed: every reminder returned by `get_due_reminders` has a
due date at or before the generation instant, and the returned list is
sorted ascending by due date. -/
theorem due_reminders_retrospective_and_sorted (E : Engine)
    (user_plants : List PlantSnapshot) (now : Int) :
    (∀ r ∈ get_due_reminders E user_plants now, r.due_date ≤ now)
  ∧ List.Sorted reminderLE (get_due_reminders E user_plants now) := by
  constructor
  · intro r hr
    rw [get_due_reminders, List.mem_insertionSort] at hr
    obtain ⟨p, hp, hrp⟩ := List.mem_flatMap.mp hr
    exact due_le_of_mem_reminders_for_plant hrp
  · exact List.sorted_insertionSort reminderLE _

/-- Claim C7, witness: a concrete overdue plant produces a reminder whose due
date is at or before now, in a sorted reminder list. -/
theorem due_reminders_retrospective_and_sorted_witness :
    bobReminder.due_date ≤ 20000
  ∧ List.Sorted reminderLE (get_due_reminders emptyEngine [bobSnapshot] 20000) := by
  have h := due_reminders_retrospective_and_sorted emptyEngine [bobSnapshot] 20000
  exact ⟨h.1 bobReminder (by rw [bob_reminders_eval]; exact List.mem_singleton_self _), h.2⟩

/-! ### Claim C8 -/

/-- Claim C8, confirmed: when a care action is detected but no resolution
tier matches any plant and the collection holds exactly one plant, that
plant is resolved as the target instead of a not-identified outcome. -/
theorem single_plant_fallback (msg : String) (p : UserPlant) (action : String)
    (haction : detect_care_action msg = some action)
    (hextract : extract_plant_name msg [p] = none) :
    process_care_message msg [p] = .resolved p.nickname action := by
  unfold process_care_message
  rw [haction, hextract]
  rfl

/-- Claim C8, witness: a message with a detected action and no lexical
overlap with the single plant resolves to that plant. -/
theorem single_plant_fallback_witness :
    process_care_message "just fed my plant" [⟨"Fernando", "snake plant"⟩]
      = .resolved "Fernando" "fertilizing" :=
  single_plant_fallback "just fed my plant" ⟨"Fernando", "snake plant"⟩ "fertilizing"
    (by decide) (by decide)

/-! ### Claim C9 -/

/-- Claim C9, confirmed: for every nonnegative days-overdue count, watering
urgency is low at 0 days, medium at 1 to 2, high at 3 to 5 and critical
above 5; fertilizing urgency is low up to 7 days, medium from 8 to 30 and
high above 30. -/
theorem urgency_classification (d : Nat) (pt : String) :
    calculate_urgency "watering" (d : Int) pt =
      (if d = 0 then "low" else if d ≤ 2 then "medium"
       else if d ≤ 5 then "high" else "critical")
  ∧ calculate_urgency "fertilizing" (d : Int) pt =
      (if d ≤ 7 then "low" else if d ≤ 30 then "medium" else "high") :=
  ⟨urgency_watering d pt, urgency_fertilizing d pt⟩

/-! ### Claim C10 -/

/-- Claim C10, confirmed: inside `get_due_reminders`, the two dict defaults
are applied independently: a snapshot lacking a `last_watered` timestamp
is scheduled as if last watered 7 days before now (whatever `created_at`
holds), and one lacking `created_at` as if entered into care 30 days
before now (whatever `last_watered` holds), so missing care history still
yields a schedule. -/
theorem snapshot_missing_dates_defaults (E : Engine) (now : Int) (plant : PlantSnapshot) :
    (plant.last_watered = none →
      snapshot_schedule E now plant =
        generate_care_schedule E plant.id
          (plant.nickname.getD (plant.common_name.getD "Your plant"))
          (plant.common_name.getD "unknown")
          (now - 7 * 1440) (plant.created_at.getD (now - 30 * 1440))
          plant.last_fertilized now)
  ∧ (plant.created_at = none →
      snapshot_schedule E now plant =
        generate_care_schedule E plant.id
          (plant.nickname.getD (plant.common_name.getD "Your plant"))
          (plant.common_name.getD "unknown")
          (plant.last_watered.getD (now - 7 * 1440)) (now - 30 * 1440)
          plant.last_fertilized now) := by
  constructor
  · intro h1
    unfold snapshot_schedule
    rw [h1]
    rfl
  · intro h2
    unfold snapshot_schedule
    rw [h2]
    rfl

/-- Claim C10, witness: both substitutions, each at a concrete snapshot
lacking just that one timestamp. -/
theorem snapshot_missing_dates_defaults_witness :
    snapshot_schedule emptyEngine 50000 missingWateredSnapshot =
      generate_care_schedule emptyEngine 3 "Milo" "y" (50000 - 7 * 1440) 100 none 50000
  ∧ snapshot_schedule emptyEngine 50000 missingCreatedSnapshot =
      generate_care_schedule emptyEngine 4 "Rex" "w" 200 (50000 - 30 * 1440) none 50000 :=
  ⟨(snapshot_missing_dates_defaults emptyEngine 50000 missingWateredSnapshot).1 rfl,
   (snapshot_missing_dates_defaults emptyEngine 50000 missingCreatedSnapshot).2 rfl⟩

end PlantsText
